import Mathlib

/-!
Verification development for debugAPK.go, a single-file Go program that
converts a release APK into a debuggable, re-signed APK by orchestrating
apktool, keytool and jarsigner around a textual manifest patch.

Strings are modelled as `List Char` (Go strings are byte/rune sequences;
all data handled here is ASCII).  External effects (process launches, file
system probes, file reads/writes) are modelled by an environment record
`Env` holding the outcome of each interaction the program performs, and
`mainRun` replays `main` over that environment, producing the ordered list
of printed events, the ordered list of external processes launched, the
temp-directory lifecycle and the process exit kind.

Go-semantics facts encoded in the model (from the Go standard library
documentation):
* `log.Fatal` is `Print` followed by `os.Exit(1)`;
* `os.Exit` terminates the program immediately and deferred functions are
  NOT run, so a `log.Fatal` skips the `defer os.RemoveAll(tmpDir)`;
* a normal return from `main` runs the deferred `os.RemoveAll`;
* a runtime panic (index out of range) terminates with exit status 2.
-/

set_option autoImplicit false

namespace DebugAPK

/-- Convert a Lean string literal to the `List Char` representation used
throughout the model. -/
def str (s : String) : List Char := s.data

/-! ### Go string primitives used by debugAPK.go -/

/-- Fuel-driven core of `strings.ReplaceAll s old new`: scan left to right,
at each position either consume a (non-overlapping, leftmost) occurrence of
`old` and emit `new`, or keep one character.  `fuel = s.length` is enough
fuel whenever `old` is non-empty (every step consumes at least one
character of `s`); all call sites in the program pass non-empty `old`.
Structural recursion on `fuel` keeps the definition kernel-reducible. -/
def replaceAllAux (new old : List Char) : Nat → List Char → List Char
  | 0, s => s
  | _ + 1, [] => []
  | fuel + 1, c :: rest =>
    if old.isPrefixOf (c :: rest) then
      new ++ replaceAllAux new old fuel ((c :: rest).drop old.length)
    else
      c :: replaceAllAux new old fuel rest

/-- `strings.ReplaceAll s old new` (Go): replace every non-overlapping
occurrence of `old` in `s` by `new`, scanning left to right.  The
replacement text is never rescanned (the scan continues in the original
string), exactly as in Go. -/
def replaceAll (s old new : List Char) : List Char :=
  replaceAllAux new old s.length s

/-- Non-overlapping leftmost occurrence count, consistent with the scan
performed by `replaceAll`. -/
def countOccurAux (pat : List Char) : Nat → List Char → Nat
  | 0, _ => 0
  | _ + 1, [] => 0
  | fuel + 1, c :: rest =>
    if pat.isPrefixOf (c :: rest) then
      1 + countOccurAux pat fuel ((c :: rest).drop pat.length)
    else
      countOccurAux pat fuel rest

/-- Number of (non-overlapping, leftmost-first) occurrences of `pat` in `s`. -/
def countOccur (s pat : List Char) : Nat := countOccurAux pat s.length s

/-- `true` iff `pat` occurs as a contiguous substring of `s`
(this is what Go's `strings.Contains` decides). -/
def hasOccur (s pat : List Char) : Bool :=
  match s with
  | [] => pat.isEmpty
  | _ :: rest => pat.isPrefixOf s || hasOccur rest pat

/-- `unicode.IsSpace` restricted to the ASCII space characters
(space, tab, newline, vertical tab, form feed, carriage return); the
program only ever splits ASCII tool output. -/
def isSpaceChar (c : Char) : Bool :=
  c = ' ' || c = '\t' || c = '\n' || c = Char.ofNat 11 || c = Char.ofNat 12 || c = '\x0d'

/-- Accumulator-based splitter behind `fields`; `acc` holds the characters
of the current in-progress field in reverse order. -/
def fieldsAux : List Char → List Char → List (List Char)
  | acc, [] => if acc.isEmpty then [] else [acc.reverse]
  | acc, c :: rest =>
    if isSpaceChar c then
      if acc.isEmpty then fieldsAux [] rest
      else acc.reverse :: fieldsAux [] rest
    else fieldsAux (c :: acc) rest

/-- `strings.Fields s` (Go): the maximal runs of non-whitespace characters
of `s`, in order; the empty list when `s` is empty or all whitespace. -/
def fields (s : List Char) : List (List Char) := fieldsAux [] s

/-- Characters of `s` strictly before the first newline (all of `s` when it
has no newline). -/
def takeUntilNewline : List Char → List Char
  | [] => []
  | c :: rest => if c = '\n' then [] else c :: takeUntilNewline rest

/-- `bufio.ScanLines` strips one trailing carriage return from a line. -/
def dropTrailingCR (s : List Char) : List Char :=
  if s.getLast? = some '\x0d' then s.dropLast else s

/-- The text produced by the first `scanner.Scan()` / `scanner.Text()` over
`s` with the default line splitter: the first line without its terminator
(and without a trailing carriage return); the empty string when `s` is
empty, since `Scan` then returns false and `Text` yields `""`. -/
def firstLine (s : List Char) : List Char := dropTrailingCR (takeUntilNewline s)

/-- `strings.Split s "\n"` (Go): always returns at least one element. -/
def splitNL : List Char → List (List Char)
  | [] => [[]]
  | c :: rest =>
    if c = '\n' then [] :: splitNL rest
    else
      match splitNL rest with
      | [] => [[c]]
      | l :: ls => (c :: l) :: ls

/-- `strings.TrimSuffix s suffix` (Go): remove one trailing copy of
`suffix` when present. -/
def trimSuffix (s suffix : List Char) : List Char :=
  if suffix.isSuffixOf s then s.take (s.length - suffix.length) else s

/-- `filepath.Ext path` (Go, slash separator): the suffix of `path`
starting at the final dot in the final path element; empty when that
element has no dot.  Implemented by scanning the reversed path; `acc`
holds the characters already passed, in original order. -/
def extRevAux : List Char → List Char → List Char
  | _, [] => []
  | acc, c :: rest =>
    if c = '/' then []
    else if c = '.' then c :: acc
    else extRevAux (c :: acc) rest

/-- `filepath.Ext path` (Go). -/
def filepathExt (path : List Char) : List Char := extRevAux [] path.reverse

/-- `filepath.Join a b` for the already-clean, non-empty paths this program
joins (a `TempDir` result with a fixed name): `Clean` is the identity on
the results, so the join is plain slash concatenation. -/
def pathJoin (a b : List Char) : List Char := a ++ str "/" ++ b

/-! ### The manifest patch (addDebuggableFlag, debugAPK.go lines 151-165) -/

/-- The first `strings.ReplaceAll` pattern of `addDebuggableFlag`.  In the
Go source it reads like a regular expression, but `strings.ReplaceAll`
treats it as a literal string. -/
def debuggablePattern : List Char := str "android:debuggable=\"[^\"]*\" *"

/-- The opening-tag token the second `strings.ReplaceAll` matches. -/
def applicationToken : List Char := str "<application "

/-- The replacement inserted for every `applicationToken` occurrence. -/
def applicationReplacement : List Char := str "<application android:debuggable=\"true\" "

/-- The pure text transformation performed by `addDebuggableFlag` between
its read and its write: the two `strings.ReplaceAll` calls of
debugAPK.go lines 158-159, in order. -/
def manifestTransform (content : List Char) : List Char :=
  replaceAll (replaceAll content debuggablePattern []) applicationToken applicationReplacement

/-- `addDebuggableFlag` (debugAPK.go lines 151-165) with its file I/O made
explicit: `readRes` is the outcome of `ioutil.ReadFile` and `writeOk`
whether `ioutil.WriteFile` succeeds.  A successful run returns the content
written back to the manifest path; either I/O failure returns the error
(file errors are abstracted to `Unit`). -/
def addDebuggableFlag (readRes : Except Unit (List Char)) (writeOk : Bool) :
    Except Unit (List Char) :=
  match readRes with
  | .error e => .error e
  | .ok data =>
    if writeOk then .ok (manifestTransform data) else .error ()

/-! ### getInstalledVersion (debugAPK.go lines 138-149) -/

/-- `getInstalledVersion` (debugAPK.go lines 138-149): `output` is the
result of `cmd.Output()` for the version query.  The Go code runs
`strings.Fields(scanner.Text())[0]` unconditionally; when the first output
line has no whitespace-delimited fields that index is out of range and the
program panics, modelled as `none`.  Otherwise `some` carries the returned
(version, nil-error) or ("", err) pair as an `Except`. -/
def getInstalledVersion (output : Except Unit (List Char)) :
    Option (Except Unit (List Char)) :=
  match output with
  | .error e => some (.error e)
  | .ok out =>
    match fields (firstLine out) with
    | [] => none
    | v :: _ => some (.ok v)

/-! ### Output path derivation (debugAPK.go line 70) -/

/-- debugAPK.go line 70: the output package path,
`strings.TrimSuffix(apk, filepath.Ext(apk)) + ".debug.apk"`. -/
def debugAPKof (apk : List Char) : List Char :=
  trimSuffix apk (filepathExt apk) ++ str ".debug.apk"

/-- Modelled from the spec's words, for comparison with `debugAPKof`
(claim C3): the input path with its extension replaced by the debug marker
followed by the original extension. -/
def specOutputPath (apk : List Char) : List Char :=
  trimSuffix apk (filepathExt apk) ++ str ".debug" ++ filepathExt apk

/-! ### The run model: environment, events, commands, results -/

/-- Outcome of one external process: whether it exited zero, and its
captured standard output and error text. -/
structure ProcResult where
  exitOk : Bool
  stdout : List Char
  stderr : List Char
deriving DecidableEq

/-- One external process launch: program name and argument list, in the
order `exec.Command` receives them. -/
structure Cmd where
  prog : List Char
  args : List (List Char)
deriving DecidableEq

/-- One observable output of the run: an ordinary print, a diagnostic
print produced by `processCMD` only when the debug flag is set, or the
message of a `log.Fatal`. -/
inductive Event where
  | print (msg : List Char)
  | diag (msg : List Char)
  | fatal (msg : List Char)
deriving DecidableEq

/-- How the process terminated: a normal return from `main` (exit status
0, deferred functions run), `os.Exit(1)` via `log.Fatal` (deferred
functions skipped), or a runtime panic (exit status 2). -/
inductive ExitKind where
  | normal
  | fatalExit
  | panicked
deriving DecidableEq

/-- The numeric process exit status of each `ExitKind`. -/
def exitCode : ExitKind → Nat
  | .normal => 0
  | .fatalExit => 1
  | .panicked => 2

/-- Environment of one run: the outcome of every external interaction
`main` can perform, in program order.  Error payloads are abstracted to
`Unit`. -/
structure Env where
  /-- Result of `cmd.Output()` for `apktool --version` (captured stdout,
  or the launch/exit error). -/
  versionOut : Except Unit (List Char)
  /-- Whether `os.Stat("apktool_2.5.0.jar")` succeeds in the working
  directory. -/
  jarStatOk : Bool
  /-- Whether `exec.LookPath "keytool"` succeeds. -/
  keytoolFound : Bool
  /-- Whether `exec.LookPath "jarsigner"` succeeds. -/
  jarsignerFound : Bool
  /-- Result of `ioutil.TempDir("", "apkdebug")`. -/
  tempDirRes : Except Unit (List Char)
  /-- Whether `os.Stat(apk)` succeeds, i.e. the input package exists. -/
  apkStatOk : Bool
  /-- Outcome of the apktool decompile invocation. -/
  unpack : ProcResult
  /-- Result of `ioutil.ReadFile` on the unpacked manifest. -/
  manifestRead : Except Unit (List Char)
  /-- Whether `ioutil.WriteFile` on the manifest succeeds. -/
  manifestWriteOk : Bool
  /-- Outcome of the apktool recompile invocation. -/
  repack : ProcResult
  /-- Outcome of the keytool key-generation invocation. -/
  keytoolGen : ProcResult
  /-- Outcome of the jarsigner signing invocation. -/
  sign : ProcResult
  /-- Outcome of the jarsigner verification invocation. -/
  verify : ProcResult

/-- Everything observable about one run of `main`: printed events in
order, external processes launched in order, whether the temporary
workspace directory was created, whether it was removed again before the
process ended, and how the process exited. -/
structure RunResult where
  events : List Event
  invoked : List Cmd
  tempDirCreated : Bool
  tempDirRemoved : Bool
  exit : ExitKind
deriving DecidableEq

/-- `processCMD` (debugAPK.go lines 122-136): run the command (its outcome
is `res`), and on a nonzero exit optionally print the captured output and
error text before returning the error. -/
def processCMD (res : ProcResult) (debugFlag : Bool) :
    Except Unit Unit × List Event :=
  if res.exitOk then (.ok (), [])
  else
    (.error (),
      if debugFlag then
        [.diag (str "Command output:\n " ++ res.stdout),
         .diag (str "Command error:\n " ++ res.stderr)]
      else [])

/-- `generateKeyStore` (debugAPK.go lines 167-182): a single keytool
invocation routed through `processCMD`. -/
def generateKeyStore (res : ProcResult) (debugFlag : Bool) :
    Except Unit Unit × List Event :=
  processCMD res debugFlag

/-- `verifyAPK` (debugAPK.go lines 184-204): run `jarsigner -verify`
capturing stdout; on success print the first two lines of the captured
output, on a nonzero exit return the error without printing. -/
def verifyAPK (res : ProcResult) : Except Unit Unit × List Event :=
  if res.exitOk then (.ok (), ((splitNL res.stdout).take 2).map Event.print)
  else (.error (), [])

/-- The required apktool version, debugAPK.go line 38. -/
def requiredVersion : List Char := str "2.5.0"

/-- The optional second CLI argument enabling diagnostics. -/
def debugWord : List Char := str "debug"

/-- `filepath.Join(".", "apktool_2.5.0.jar")`; `Join` cleans away the
leading `./`. -/
def apktoolJar : List Char := str "apktool_2.5.0.jar"

/-- The version-mismatch report of debugAPK.go line 51. -/
def mismatchMsg (installed : List Char) : List Char :=
  str "I require apktool version 2.5.0 but found version " ++ installed ++ str ". Aborting."

/-- The version query `apktool --version`, always the first external
process of a run (debugAPK.go line 139). -/
def versionCmd : Cmd := ⟨str "apktool", [str "--version"]⟩

/-- The apktool decompile command of debugAPK.go lines 74-75. -/
def unpackCmd (tool : List Char) (toolArgs : List (List Char))
    (apk tmpDir : List Char) : Cmd :=
  ⟨tool, toolArgs ++ [str "-q", str "d", apk, str "-o", pathJoin tmpDir (str "app")]⟩

/-- The apktool recompile command of debugAPK.go lines 88-89. -/
def repackCmd (tool : List Char) (toolArgs : List (List Char))
    (apk tmpDir : List Char) : Cmd :=
  ⟨tool, toolArgs ++ [str "-q", str "b", pathJoin tmpDir (str "app"),
    str "--use-aapt2", str "-o", debugAPKof apk]⟩

/-- The keytool key-generation command of debugAPK.go lines 168-175. -/
def keytoolCmd (tmpDir : List Char) : Cmd :=
  ⟨str "keytool",
   [str "-genkey", str "-noprompt", str "-alias", str "alias1", str "-dname",
    str "CN=Unknown, OU=Unknown, O=Unknown, L=Unknown, S=Unknown, C=Unknown",
    str "-keystore", pathJoin tmpDir (str "keystore"), str "-keyalg", str "RSA",
    str "-storepass", str "password", str "-keypass", str "password"]⟩

/-- The jarsigner signing command of debugAPK.go line 101. -/
def signCmd (apk tmpDir : List Char) : Cmd :=
  ⟨str "jarsigner",
   [str "-keystore", pathJoin tmpDir (str "keystore"), str "-storepass",
    str "password", str "-keypass", str "password", debugAPKof apk, str "alias1"]⟩

/-- The jarsigner verification command of debugAPK.go line 185. -/
def verifyCmd (apk : List Char) : Cmd :=
  ⟨str "jarsigner", [str "-verify", debugAPKof apk]⟩

/-- The trailing success banner of debugAPK.go lines 112-116
(Println separates its two operands on line 116 with a space, hence the
double space). -/
def successTail (apk : List Char) : List Event :=
  [.print (str "\n======"), .print (str "Success!"), .print (str "======"),
   .print (str "(deleting temporary directory...)"),
   .print (str "Your debug APK:  " ++ debugAPKof apk)]

/-- debugAPK.go lines 72-119: the part of `main` from the `os.Stat(apk)`
check onward, after the temporary directory `tmpDir` was created and
`os.RemoveAll(tmpDir)` was deferred.  `tool`/`toolArgs` are the resolved
apktool invocation, `ev0` the events printed so far.  A `log.Fatal` branch
ends with `tempDirRemoved := false` because `os.Exit` skips the deferred
removal; the two normal returns run it. -/
def pipeline (env : Env) (apk : List Char) (debugFlag : Bool)
    (tool : List Char) (toolArgs : List (List Char))
    (ev0 : List Event) (tmpDir : List Char) : RunResult :=
  if env.apkStatOk then
    match processCMD env.unpack debugFlag with
    | (.error _, d1) =>
      ⟨ev0 ++ [.print (str "=> Unpacking APK...")] ++ d1 ++
        [.fatal (str "Failed to unpack APK: ")],
       [versionCmd, unpackCmd tool toolArgs apk tmpDir], true, false, .fatalExit⟩
    | (.ok _, d1) =>
      match addDebuggableFlag env.manifestRead env.manifestWriteOk with
      | .error _ =>
        ⟨ev0 ++ [.print (str "=> Unpacking APK...")] ++ d1 ++
          [.print (str "=> Adding debug flag..."), .fatal (str "Failed to add debug flag: ")],
         [versionCmd, unpackCmd tool toolArgs apk tmpDir], true, false, .fatalExit⟩
      | .ok _ =>
        match processCMD env.repack debugFlag with
        | (.error _, d2) =>
          ⟨ev0 ++ [.print (str "=> Unpacking APK...")] ++ d1 ++
            [.print (str "=> Adding debug flag..."), .print (str "=> Repacking APK...")] ++ d2 ++
            [.fatal (str "Failed to repackage APK:")],
           [versionCmd, unpackCmd tool toolArgs apk tmpDir,
            repackCmd tool toolArgs apk tmpDir], true, false, .fatalExit⟩
        | (.ok _, d2) =>
          match generateKeyStore env.keytoolGen debugFlag with
          | (.error _, d3) =>
            ⟨ev0 ++ [.print (str "=> Unpacking APK...")] ++ d1 ++
              [.print (str "=> Adding debug flag..."), .print (str "=> Repacking APK...")] ++ d2 ++
              [.print (str "=> Signing APK...")] ++ d3 ++
              [.fatal (str "Failed to generate keystore: ")],
             [versionCmd, unpackCmd tool toolArgs apk tmpDir,
              repackCmd tool toolArgs apk tmpDir, keytoolCmd tmpDir],
             true, false, .fatalExit⟩
          | (.ok _, d3) =>
            match processCMD env.sign debugFlag with
            | (.error _, d4) =>
              ⟨ev0 ++ [.print (str "=> Unpacking APK...")] ++ d1 ++
                [.print (str "=> Adding debug flag..."), .print (str "=> Repacking APK...")] ++ d2 ++
                [.print (str "=> Signing APK...")] ++ d3 ++ d4 ++
                [.fatal (str "Failed to sign APK: ")],
               [versionCmd, unpackCmd tool toolArgs apk tmpDir,
                repackCmd tool toolArgs apk tmpDir, keytoolCmd tmpDir,
                signCmd apk tmpDir], true, false, .fatalExit⟩
            | (.ok _, d4) =>
              match verifyAPK env.verify with
              | (.error _, _) =>
                ⟨ev0 ++ [.print (str "=> Unpacking APK...")] ++ d1 ++
                  [.print (str "=> Adding debug flag..."), .print (str "=> Repacking APK...")] ++ d2 ++
                  [.print (str "=> Signing APK...")] ++ d3 ++ d4 ++
                  [.print (str "=> Checking your debug APK..."),
                   .fatal (str "Failed to verify debug APK: ")],
                 [versionCmd, unpackCmd tool toolArgs apk tmpDir,
                  repackCmd tool toolArgs apk tmpDir, keytoolCmd tmpDir,
                  signCmd apk tmpDir, verifyCmd apk], true, false, .fatalExit⟩
              | (.ok _, v5) =>
                ⟨ev0 ++ [.print (str "=> Unpacking APK...")] ++ d1 ++
                  [.print (str "=> Adding debug flag..."), .print (str "=> Repacking APK...")] ++ d2 ++
                  [.print (str "=> Signing APK...")] ++ d3 ++ d4 ++
                  [.print (str "=> Checking your debug APK...")] ++ v5 ++ successTail apk,
                 [versionCmd, unpackCmd tool toolArgs apk tmpDir,
                  repackCmd tool toolArgs apk tmpDir, keytoolCmd tmpDir,
                  signCmd apk tmpDir, verifyCmd apk], true, true, .normal⟩
  else
    ⟨ev0 ++ [.print (str "File not found:  " ++ apk)], [versionCmd], true, true, .normal⟩

/-- debugAPK.go lines 44-54: resolve the apktool invocation after the
version query.  `inl` carries the tool, its prefix arguments and the
events printed; `inr` is the mismatch abort (a plain `return`). -/
def resolveApktool (env : Env) (installed : List Char) :
    (List Char × List (List Char) × List Event) ⊕ List Event :=
  if installed = requiredVersion then
    .inl (str "apktool", [], [])
  else if env.jarStatOk then
    .inl (str "java", [str "-jar", apktoolJar],
      [.print (str "Found apktool_2.5.0.jar file in the current directory. Proceeding...")])
  else
    .inr [.print (mismatchMsg installed)]

/-- debugAPK.go lines 56-119: the auxiliary-tool lookups, the temporary
directory creation (with its deferred removal) and the pipeline, after the
apktool invocation has been resolved to `tool`/`toolArgs` with events
`ev0` printed so far. -/
def toolChecks (env : Env) (apk : List Char) (debugFlag : Bool)
    (tool : List Char) (toolArgs : List (List Char)) (ev0 : List Event) : RunResult :=
  if env.keytoolFound then
    if env.jarsignerFound then
      match env.tempDirRes with
      | .error _ =>
        ⟨ev0 ++ [.fatal (str "Failed to create temporary directory:")],
         [versionCmd], false, false, .fatalExit⟩
      | .ok tmpDir => pipeline env apk debugFlag tool toolArgs ev0 tmpDir
    else
      ⟨ev0 ++ [.fatal (str "I require jarsigner but it's not installed. Aborting.")],
       [versionCmd], false, false, .fatalExit⟩
  else
    ⟨ev0 ++ [.fatal (str "I require keytool but it's not installed. Aborting.")],
     [versionCmd], false, false, .fatalExit⟩

/-- debugAPK.go lines 38-119: `main` after argument capture, for input
path `apk` and debug flag `debugFlag`. -/
def mainGo (env : Env) (apk : List Char) (debugFlag : Bool) : RunResult :=
  match getInstalledVersion env.versionOut with
  | none =>
    ⟨[], [versionCmd], false, false, .panicked⟩
  | some (.error _) =>
    ⟨[.fatal (str "Failed to check installed apktool version: ")],
     [versionCmd], false, false, .fatalExit⟩
  | some (.ok installedVersion) =>
    match resolveApktool env installedVersion with
    | .inr ev => ⟨ev, [versionCmd], false, false, .normal⟩
    | .inl (tool, toolArgs, ev0) => toolChecks env apk debugFlag tool toolArgs ev0

/-- `main` (debugAPK.go lines 25-120): `argv` is `os.Args[1:]`.  With no
argument it prints the usage line and returns; otherwise the first
argument is the input package and the debug flag is set exactly when the
second argument equals "debug". -/
def mainRun (argv : List (List Char)) (env : Env) : RunResult :=
  match argv with
  | [] =>
    ⟨[.print (str "Usage: go run main.go [APK_FILE]")], [], false, false, .normal⟩
  | apk :: rest => mainGo env apk (decide (rest.head? = some debugWord))

/-- Whether an event is one of the two diagnostic prints that
`processCMD` emits only when the debug flag is set. -/
def isDiag : Event → Bool
  | .diag _ => true
  | _ => false

/-- The events of a run with the diagnostic prints removed. -/
def removeDiag (evs : List Event) : List Event := evs.filter (fun e => ! isDiag e)

/-- Whether all six pipeline stages of a run would succeed: the unpack,
repack, keytool and signing/verification processes exit zero and the
manifest patch's file I/O succeeds. -/
def stagesAllOk (env : Env) : Bool :=
  env.unpack.exitOk &&
  (match addDebuggableFlag env.manifestRead env.manifestWriteOk with
    | .ok _ => true
    | .error _ => false) &&
  env.repack.exitOk && env.keytoolGen.exitOk && env.sign.exitOk && env.verify.exitOk

/-! ### Concrete environments for witnesses and counterexamples -/

/-- A process that exited zero with no output. -/
def okProc : ProcResult := ⟨true, [], []⟩

/-- A process that exited nonzero with some captured output. -/
def failProc : ProcResult := ⟨false, str "tool output", str "tool error"⟩

/-- A fully successful environment: apktool 2.5.0 installed, both
auxiliary tools present, workspace creation succeeds, the input package
exists, and every stage succeeds. -/
def baseEnv : Env :=
  { versionOut := .ok (str "2.5.0"),
    jarStatOk := false,
    keytoolFound := true,
    jarsignerFound := true,
    tempDirRes := .ok (str "/tmp/apkdebug123"),
    apkStatOk := true,
    unpack := okProc,
    manifestRead := .ok (str "<manifest><application android:name=\"m\"></application></manifest>"),
    manifestWriteOk := true,
    repack := okProc,
    keytoolGen := okProc,
    sign := okProc,
    verify := ⟨true, str "jar verified.\n\nWarning:\n", []⟩ }

/-- `baseEnv` except that the apktool recompile invocation exits nonzero. -/
def envRepackFail : Env := { baseEnv with repack := failProc }

/-- `baseEnv` except that the installed apktool reports version 2.4.1 (and
no apktool_2.5.0.jar fallback exists in the working directory). -/
def envMismatch : Env := { baseEnv with versionOut := .ok (str "2.4.1") }

/-- `baseEnv` except that the input package path does not exist. -/
def envNoInput : Env := { baseEnv with apkStatOk := false }

/-- `baseEnv` except that the version query itself fails (apktool not
installed, or exiting nonzero). -/
def envVersionQueryFail : Env := { baseEnv with versionOut := .error () }

/-- `baseEnv` except that keytool is not on the search path. -/
def envNoKeytool : Env := { baseEnv with keytoolFound := false }

/-- `baseEnv` except that jarsigner is not on the search path. -/
def envNoJarsigner : Env := { baseEnv with jarsignerFound := false }

/-- `baseEnv` except that creating the temporary directory fails. -/
def envTempDirFail : Env := { baseEnv with tempDirRes := .error () }

/-! ## Helper lemmas -/

theorem replaceAllAux_of_not_hasOccur (new old : List Char) :
    ∀ (fuel : Nat) (s : List Char), hasOccur s old = false →
      replaceAllAux new old fuel s = s := by
  intro fuel
  induction fuel with
  | zero => intro s _; rfl
  | succ n ih =>
    intro s h
    match s with
    | [] => rfl
    | c :: rest =>
      rw [hasOccur, Bool.or_eq_false_iff] at h
      rw [replaceAllAux, if_neg (by simp [h.1]), ih rest h.2]

/-- A string with no occurrence of `old` is left unchanged by
`strings.ReplaceAll`. -/
theorem replaceAll_of_not_hasOccur (s old new : List Char)
    (h : hasOccur s old = false) : replaceAll s old new = s :=
  replaceAllAux_of_not_hasOccur new old s.length s h

/-! ## Claims C2, C3, C9, C10: the pure functions -/

/-- Claim C2 (code_bug): on a manifest whose application element already
carries one android:debuggable attribute, addDebuggableFlag is claimed to
yield exactly one debuggable="true" attribute.  In fact the removal step
passes a regex-looking pattern to the literal `strings.ReplaceAll`, so the
existing attribute survives and the patched manifest carries two
android:debuggable attributes. -/
theorem claim2_duplicate_debuggable :
    countOccur (str "<manifest><application android:debuggable=\"false\" android:name=\"x\"></application></manifest>") (str "android:debuggable=") = 1 ∧
    addDebuggableFlag (Except.ok (str "<manifest><application android:debuggable=\"false\" android:name=\"x\"></application></manifest>")) true =
      Except.ok (str "<manifest><application android:debuggable=\"true\" android:debuggable=\"false\" android:name=\"x\"></application></manifest>") ∧
    countOccur (str "<manifest><application android:debuggable=\"true\" android:debuggable=\"false\" android:name=\"x\"></application></manifest>") (str "android:debuggable=") = 2 :=
  ⟨by decide, by rfl, by decide⟩

/-- Claim C3, counterexample: for the input `app.zip` the program derives
`app.debug.apk` (the `.apk` suffix is hard-coded at debugAPK.go line 70),
not the `app.debug.zip` that replacing the extension with `.debug` plus
the original extension would give. -/
theorem claim3_counterexample :
    debugAPKof (str "app.zip") = str "app.debug.apk" ∧
    specOutputPath (str "app.zip") = str "app.debug.zip" ∧
    debugAPKof (str "app.zip") ≠ specOutputPath (str "app.zip") :=
  ⟨by decide, by decide, by decide⟩

/-- Claim C3 (corrected): the output path is the input path with its
extension removed and the fixed suffix `.debug.apk` appended; this agrees
with the claimed extension-replacement rule exactly when the input's
extension is `.apk`. -/
theorem claim3_amended (apk : List Char) (h : filepathExt apk = str ".apk") :
    debugAPKof apk = specOutputPath apk := by
  unfold debugAPKof specOutputPath
  rw [h, List.append_assoc]
  congr 1

/-- Witness for `claim3_amended` at the input `app.apk`. -/
theorem claim3_amended_witness :
    filepathExt (str "app.apk") = str ".apk" ∧
    debugAPKof (str "app.apk") = specOutputPath (str "app.apk") :=
  ⟨by decide, claim3_amended _ (by decide)⟩

/-- Claim C9, counterexample: when the version query succeeds with output
consisting of one empty line, `strings.Fields` of the first line is empty
and the unconditional index `[0]` at debugAPK.go line 147 is out of range:
`getInstalledVersion` panics (modelled as `none`) instead of returning a
version string or an error. -/
theorem claim9_counterexample :
    getInstalledVersion (Except.ok (str "\n")) = none := by rfl

/-- Claim C9 (corrected): getInstalledVersion propagates a query error
without panicking, and on a successful query whose first output line has
at least one whitespace-delimited field it returns that first field; but
on a successful query whose first line has no fields it panics with an
index-out-of-range (see the counterexample). -/
theorem claim9_amended :
    (∀ e : Unit, getInstalledVersion (Except.error e) = some (Except.error e)) ∧
    (∀ (o v : List Char) (vs : List (List Char)),
      fields (firstLine o) = v :: vs →
      getInstalledVersion (Except.ok o) = some (Except.ok v)) := by
  constructor
  · intro e; rfl
  · intro o v vs h
    simp only [getInstalledVersion, h]

/-- Witness for `claim9_amended` on the output "2.5.0". -/
theorem claim9_amended_witness :
    fields (firstLine (str "2.5.0")) = [str "2.5.0"] ∧
    getInstalledVersion (Except.ok (str "2.5.0")) = some (Except.ok (str "2.5.0")) :=
  ⟨by decide, claim9_amended.2 (str "2.5.0") (str "2.5.0") [] (by decide)⟩

/-- Claim C10, counterexample: a manifest text with no application token
is not always written back unchanged: the first `strings.ReplaceAll`
deletes any literal occurrence of the regex-looking pattern
android:debuggable="[^"]*" * even though no application element exists. -/
theorem claim10_counterexample :
    hasOccur (str "android:debuggable=\"[^\"]*\" *x") applicationToken = false ∧
    addDebuggableFlag (Except.ok (str "android:debuggable=\"[^\"]*\" *x")) true =
      Except.ok (str "x") ∧
    str "x" ≠ str "android:debuggable=\"[^\"]*\" *x" :=
  ⟨by decide, by rfl, by decide⟩

/-- Claim C10 (corrected): for every manifest text containing neither the
application token nor a literal occurrence of the pattern string
android:debuggable="[^"]*" *, addDebuggableFlag succeeds and writes the
file back unchanged. -/
theorem claim10_amended (content : List Char)
    (h1 : hasOccur content applicationToken = false)
    (h2 : hasOccur content debuggablePattern = false) :
    addDebuggableFlag (Except.ok content) true = Except.ok content := by
  have e2 := replaceAll_of_not_hasOccur content debuggablePattern [] h2
  have e1 := replaceAll_of_not_hasOccur content applicationToken applicationReplacement h1
  simp [addDebuggableFlag, manifestTransform, e2, e1]

/-- Witness for `claim10_amended` on a manifest with no application
element. -/
theorem claim10_amended_witness :
    hasOccur (str "<manifest></manifest>") applicationToken = false ∧
    hasOccur (str "<manifest></manifest>") debuggablePattern = false ∧
    addDebuggableFlag (Except.ok (str "<manifest></manifest>")) true =
      Except.ok (str "<manifest></manifest>") :=
  ⟨by decide, by decide, claim10_amended _ (by decide) (by decide)⟩


/-! ## Helper lemmas about the run model -/

theorem processCMD_ok (r : ProcResult) (b : Bool) (h : r.exitOk = true) :
    processCMD r b = (Except.ok (), []) := by
  simp [processCMD, h]

theorem processCMD_err (r : ProcResult) (b : Bool) (h : r.exitOk = false) :
    processCMD r b =
      (Except.error (),
        if b then
          [Event.diag (str "Command output:\n " ++ r.stdout),
           Event.diag (str "Command error:\n " ++ r.stderr)]
        else []) := by
  simp [processCMD, h]

theorem filter_isDiag_map_print (l : List (List Char)) :
    (l.map Event.print).filter isDiag = [] := by
  induction l with
  | nil => rfl
  | cons x xs ih => simp_all [isDiag]

theorem mainRun_single : ∀ (env : Env) (apk : List Char),
    mainRun [apk] env = mainGo env apk false := fun _ _ => rfl

theorem mainRun_debug : ∀ (env : Env) (apk : List Char),
    mainRun [apk, debugWord] env = mainGo env apk true := fun _ _ => rfl

theorem mainRun_mismatch (env : Env) (apk o v : List Char) (vs : List (List Char))
    (h1 : env.versionOut = Except.ok o)
    (h2 : fields (firstLine o) = v :: vs)
    (hv : v ≠ requiredVersion)
    (hj : env.jarStatOk = false) :
    mainRun [apk] env =
      ⟨[Event.print (mismatchMsg v)], [versionCmd], false, false, ExitKind.normal⟩ := by
  rw [mainRun_single]
  simp [mainGo, toolChecks, getInstalledVersion, resolveApktool, h1, h2, hv, hj]

theorem mainRun_preflight (env : Env) (apk o td : List Char) (vs : List (List Char))
    (h1 : env.versionOut = Except.ok o)
    (h2 : fields (firstLine o) = requiredVersion :: vs)
    (h3 : env.keytoolFound = true)
    (h4 : env.jarsignerFound = true)
    (h5 : env.tempDirRes = Except.ok td) :
    mainRun [apk] env = pipeline env apk false (str "apktool") [] [] td := by
  rw [mainRun_single]
  simp [mainGo, toolChecks, getInstalledVersion, resolveApktool, h1, h2, h3, h4, h5]

theorem mainRun_preflight_jar (env : Env) (apk o v td : List Char) (vs : List (List Char))
    (h1 : env.versionOut = Except.ok o)
    (h2 : fields (firstLine o) = v :: vs)
    (hv : v ≠ requiredVersion)
    (hj : env.jarStatOk = true)
    (h3 : env.keytoolFound = true)
    (h4 : env.jarsignerFound = true)
    (h5 : env.tempDirRes = Except.ok td) :
    mainRun [apk] env = pipeline env apk false (str "java") [str "-jar", apktoolJar]
      [Event.print (str "Found apktool_2.5.0.jar file in the current directory. Proceeding...")] td := by
  rw [mainRun_single]
  simp [mainGo, toolChecks, getInstalledVersion, resolveApktool, h1, h2, hv, hj, h3, h4, h5]

theorem pipeline_notFound (env : Env) (apk tool tmpDir : List Char)
    (toolArgs : List (List Char)) (ev0 : List Event) (b : Bool)
    (ha : env.apkStatOk = false) :
    pipeline env apk b tool toolArgs ev0 tmpDir =
      ⟨ev0 ++ [Event.print (str "File not found:  " ++ apk)], [versionCmd],
       true, true, ExitKind.normal⟩ := by
  simp [pipeline, ha]

theorem pipeline_unpack_fail (env : Env) (apk tool tmpDir : List Char)
    (toolArgs : List (List Char)) (ev0 : List Event)
    (ha : env.apkStatOk = true) (hu : env.unpack.exitOk = false) :
    pipeline env apk false tool toolArgs ev0 tmpDir =
      ⟨ev0 ++ [Event.print (str "=> Unpacking APK..."), Event.fatal (str "Failed to unpack APK: ")],
       [versionCmd, unpackCmd tool toolArgs apk tmpDir], true, false, ExitKind.fatalExit⟩ := by
  simp [pipeline, processCMD, ha, hu]

theorem pipeline_manifest_fail (env : Env) (apk tool tmpDir : List Char)
    (toolArgs : List (List Char)) (ev0 : List Event)
    (ha : env.apkStatOk = true) (hu : env.unpack.exitOk = true)
    (hm : addDebuggableFlag env.manifestRead env.manifestWriteOk = Except.error ()) :
    pipeline env apk false tool toolArgs ev0 tmpDir =
      ⟨ev0 ++ [Event.print (str "=> Unpacking APK..."), Event.print (str "=> Adding debug flag..."),
        Event.fatal (str "Failed to add debug flag: ")],
       [versionCmd, unpackCmd tool toolArgs apk tmpDir], true, false, ExitKind.fatalExit⟩ := by
  simp [pipeline, processCMD, ha, hu, hm]

theorem pipeline_repack_fail (env : Env) (apk tool tmpDir m : List Char)
    (toolArgs : List (List Char)) (ev0 : List Event)
    (ha : env.apkStatOk = true) (hu : env.unpack.exitOk = true)
    (hm : addDebuggableFlag env.manifestRead env.manifestWriteOk = Except.ok m)
    (hr : env.repack.exitOk = false) :
    pipeline env apk false tool toolArgs ev0 tmpDir =
      ⟨ev0 ++ [Event.print (str "=> Unpacking APK..."), Event.print (str "=> Adding debug flag..."),
        Event.print (str "=> Repacking APK..."), Event.fatal (str "Failed to repackage APK:")],
       [versionCmd, unpackCmd tool toolArgs apk tmpDir, repackCmd tool toolArgs apk tmpDir],
       true, false, ExitKind.fatalExit⟩ := by
  simp [pipeline, processCMD, ha, hu, hm, hr]

theorem pipeline_keystore_fail (env : Env) (apk tool tmpDir m : List Char)
    (toolArgs : List (List Char)) (ev0 : List Event)
    (ha : env.apkStatOk = true) (hu : env.unpack.exitOk = true)
    (hm : addDebuggableFlag env.manifestRead env.manifestWriteOk = Except.ok m)
    (hr : env.repack.exitOk = true) (hk : env.keytoolGen.exitOk = false) :
    pipeline env apk false tool toolArgs ev0 tmpDir =
      ⟨ev0 ++ [Event.print (str "=> Unpacking APK..."), Event.print (str "=> Adding debug flag..."),
        Event.print (str "=> Repacking APK..."), Event.print (str "=> Signing APK..."),
        Event.fatal (str "Failed to generate keystore: ")],
       [versionCmd, unpackCmd tool toolArgs apk tmpDir, repackCmd tool toolArgs apk tmpDir,
        keytoolCmd tmpDir], true, false, ExitKind.fatalExit⟩ := by
  simp [pipeline, processCMD, generateKeyStore, ha, hu, hm, hr, hk]

theorem pipeline_sign_fail (env : Env) (apk tool tmpDir m : List Char)
    (toolArgs : List (List Char)) (ev0 : List Event)
    (ha : env.apkStatOk = true) (hu : env.unpack.exitOk = true)
    (hm : addDebuggableFlag env.manifestRead env.manifestWriteOk = Except.ok m)
    (hr : env.repack.exitOk = true) (hk : env.keytoolGen.exitOk = true)
    (hs : env.sign.exitOk = false) :
    pipeline env apk false tool toolArgs ev0 tmpDir =
      ⟨ev0 ++ [Event.print (str "=> Unpacking APK..."), Event.print (str "=> Adding debug flag..."),
        Event.print (str "=> Repacking APK..."), Event.print (str "=> Signing APK..."),
        Event.fatal (str "Failed to sign APK: ")],
       [versionCmd, unpackCmd tool toolArgs apk tmpDir, repackCmd tool toolArgs apk tmpDir,
        keytoolCmd tmpDir, signCmd apk tmpDir], true, false, ExitKind.fatalExit⟩ := by
  simp [pipeline, processCMD, generateKeyStore, ha, hu, hm, hr, hk, hs]

theorem pipeline_verify_fail (env : Env) (apk tool tmpDir m : List Char)
    (toolArgs : List (List Char)) (ev0 : List Event)
    (ha : env.apkStatOk = true) (hu : env.unpack.exitOk = true)
    (hm : addDebuggableFlag env.manifestRead env.manifestWriteOk = Except.ok m)
    (hr : env.repack.exitOk = true) (hk : env.keytoolGen.exitOk = true)
    (hs : env.sign.exitOk = true) (hvf : env.verify.exitOk = false) :
    pipeline env apk false tool toolArgs ev0 tmpDir =
      ⟨ev0 ++ [Event.print (str "=> Unpacking APK..."), Event.print (str "=> Adding debug flag..."),
        Event.print (str "=> Repacking APK..."), Event.print (str "=> Signing APK..."),
        Event.print (str "=> Checking your debug APK..."),
        Event.fatal (str "Failed to verify debug APK: ")],
       [versionCmd, unpackCmd tool toolArgs apk tmpDir, repackCmd tool toolArgs apk tmpDir,
        keytoolCmd tmpDir, signCmd apk tmpDir, verifyCmd apk],
       true, false, ExitKind.fatalExit⟩ := by
  simp [pipeline, processCMD, generateKeyStore, verifyAPK, ha, hu, hm, hr, hk, hs, hvf]

theorem tempDirRemoved_imp_normal (argv : List (List Char)) (env : Env) :
    (mainRun argv env).tempDirRemoved = true → (mainRun argv env).exit = ExitKind.normal := by
  unfold mainRun mainGo toolChecks pipeline
  repeat' split
  all_goals simp_all [processCMD, generateKeyStore, verifyAPK]

theorem pipeline_flag_indep (env : Env) (apk tool tmpDir : List Char)
    (toolArgs : List (List Char)) (ev0 : List Event) (b : Bool) :
    (pipeline env apk b tool toolArgs ev0 tmpDir).invoked =
      (pipeline env apk false tool toolArgs ev0 tmpDir).invoked ∧
    (pipeline env apk b tool toolArgs ev0 tmpDir).exit =
      (pipeline env apk false tool toolArgs ev0 tmpDir).exit ∧
    (pipeline env apk b tool toolArgs ev0 tmpDir).tempDirCreated =
      (pipeline env apk false tool toolArgs ev0 tmpDir).tempDirCreated ∧
    (pipeline env apk b tool toolArgs ev0 tmpDir).tempDirRemoved =
      (pipeline env apk false tool toolArgs ev0 tmpDir).tempDirRemoved ∧
    removeDiag (pipeline env apk b tool toolArgs ev0 tmpDir).events =
      removeDiag (pipeline env apk false tool toolArgs ev0 tmpDir).events := by
  cases ha : env.apkStatOk <;>
    cases hu : env.unpack.exitOk <;>
    cases hm : addDebuggableFlag env.manifestRead env.manifestWriteOk <;>
    cases hr : env.repack.exitOk <;>
    cases hk : env.keytoolGen.exitOk <;>
    cases hs : env.sign.exitOk <;>
    cases hvf : env.verify.exitOk <;>
    cases b <;>
    simp [pipeline, processCMD, generateKeyStore, verifyAPK, removeDiag, isDiag,
      ha, hu, hm, hr, hk, hs, hvf]

theorem pipeline_false_noDiag (env : Env) (apk tool tmpDir : List Char)
    (toolArgs : List (List Char)) (ev0 : List Event)
    (h0 : ev0.filter isDiag = []) :
    (pipeline env apk false tool toolArgs ev0 tmpDir).events.filter isDiag = [] := by
  cases ha : env.apkStatOk <;>
    cases hu : env.unpack.exitOk <;>
    cases hm : addDebuggableFlag env.manifestRead env.manifestWriteOk <;>
    cases hr : env.repack.exitOk <;>
    cases hk : env.keytoolGen.exitOk <;>
    cases hs : env.sign.exitOk <;>
    cases hvf : env.verify.exitOk <;>
    simp [pipeline, processCMD, generateKeyStore, verifyAPK, isDiag, successTail, h0,
      filter_isDiag_map_print, ha, hu, hm, hr, hk, hs, hvf]
  all_goals intro a ha2
  all_goals rcases List.mem_map.mp (List.mem_of_mem_take ha2) with ⟨x, hx, rfl⟩
  all_goals rfl

theorem toolChecks_flag_indep (env : Env) (apk tool : List Char)
    (toolArgs : List (List Char)) (ev0 : List Event) (b : Bool) :
    (toolChecks env apk b tool toolArgs ev0).invoked =
      (toolChecks env apk false tool toolArgs ev0).invoked ∧
    (toolChecks env apk b tool toolArgs ev0).exit =
      (toolChecks env apk false tool toolArgs ev0).exit ∧
    (toolChecks env apk b tool toolArgs ev0).tempDirCreated =
      (toolChecks env apk false tool toolArgs ev0).tempDirCreated ∧
    (toolChecks env apk b tool toolArgs ev0).tempDirRemoved =
      (toolChecks env apk false tool toolArgs ev0).tempDirRemoved ∧
    removeDiag (toolChecks env apk b tool toolArgs ev0).events =
      removeDiag (toolChecks env apk false tool toolArgs ev0).events := by
  unfold toolChecks
  cases h3 : env.keytoolFound <;> cases h4 : env.jarsignerFound <;> simp
  cases h5 : env.tempDirRes with
  | error e => simp
  | ok td => exact pipeline_flag_indep env apk tool td toolArgs ev0 b

theorem toolChecks_false_noDiag (env : Env) (apk tool : List Char)
    (toolArgs : List (List Char)) (ev0 : List Event)
    (h0 : ev0.filter isDiag = []) :
    (toolChecks env apk false tool toolArgs ev0).events.filter isDiag = [] := by
  unfold toolChecks
  cases h3 : env.keytoolFound <;> cases h4 : env.jarsignerFound <;>
    cases h5 : env.tempDirRes <;>
    first
      | exact pipeline_false_noDiag env apk tool _ toolArgs ev0 h0
      | simp [isDiag, h0]

theorem mainGo_flag_indep (env : Env) (apk : List Char) (b : Bool) :
    (mainGo env apk b).invoked = (mainGo env apk false).invoked ∧
    (mainGo env apk b).exit = (mainGo env apk false).exit ∧
    (mainGo env apk b).tempDirCreated = (mainGo env apk false).tempDirCreated ∧
    (mainGo env apk b).tempDirRemoved = (mainGo env apk false).tempDirRemoved ∧
    removeDiag (mainGo env apk b).events = removeDiag (mainGo env apk false).events := by
  unfold mainGo
  cases hgv : getInstalledVersion env.versionOut with
  | none => simp
  | some r =>
    cases r with
    | error e => simp
    | ok v =>
      cases hra : resolveApktool env v with
      | inr ev => simp [hra]
      | inl t =>
        obtain ⟨tool, toolArgs, ev0⟩ := t
        simp only [hra]
        exact toolChecks_flag_indep env apk tool toolArgs ev0 b

theorem mainGo_false_noDiag (env : Env) (apk : List Char) :
    (mainGo env apk false).events.filter isDiag = [] := by
  unfold mainGo
  cases hgv : getInstalledVersion env.versionOut with
  | none => simp
  | some r =>
    cases r with
    | error e => simp [isDiag]
    | ok v =>
      by_cases hv : v = requiredVersion
      · have hres : resolveApktool env v = Sum.inl (str "apktool", [], []) := by
          simp [resolveApktool, hv]
        simp only [hres]
        exact toolChecks_false_noDiag env apk _ _ [] rfl
      · cases hj : env.jarStatOk
        · have hres : resolveApktool env v = Sum.inr [Event.print (mismatchMsg v)] := by
            simp [resolveApktool, hv, hj]
          simp only [hres]
          simp [isDiag]
        · have hres : resolveApktool env v =
              Sum.inl (str "java", [str "-jar", apktoolJar],
                [Event.print (str "Found apktool_2.5.0.jar file in the current directory. Proceeding...")]) := by
            simp [resolveApktool, hv, hj]
          simp only [hres]
          exact toolChecks_false_noDiag env apk _ _ _ (by simp [isDiag])
theorem mainRun_version_query_fail (env : Env) (apk : List Char) (e : Unit)
    (h1 : env.versionOut = Except.error e) :
    mainRun [apk] env =
      ⟨[Event.fatal (str "Failed to check installed apktool version: ")],
       [versionCmd], false, false, ExitKind.fatalExit⟩ := by
  rw [mainRun_single]
  simp [mainGo, getInstalledVersion, h1]

/-- Whenever the installed version matches exactly or the fallback jar is
present, the apktool invocation resolves (debugAPK.go lines 44-54 do not
abort). -/
theorem resolveApktool_inl (env : Env) (v : List Char)
    (hva : v = requiredVersion ∨ env.jarStatOk = true) :
    ∃ tool toolArgs ev0, resolveApktool env v = Sum.inl (tool, toolArgs, ev0) := by
  by_cases hv : v = requiredVersion
  · exact ⟨str "apktool", [], [], by simp [resolveApktool, hv]⟩
  · rcases hva with h | h
    · exact absurd h hv
    · exact ⟨str "java", [str "-jar", apktoolJar],
        [Event.print (str "Found apktool_2.5.0.jar file in the current directory. Proceeding...")],
        by simp [resolveApktool, hv, h]⟩

theorem mainRun_toolChecks (env : Env) (apk o v tool : List Char) (vs : List (List Char))
    (toolArgs : List (List Char)) (ev0 : List Event)
    (h1 : env.versionOut = Except.ok o)
    (h2 : fields (firstLine o) = v :: vs)
    (hres : resolveApktool env v = Sum.inl (tool, toolArgs, ev0)) :
    mainRun [apk] env = toolChecks env apk false tool toolArgs ev0 := by
  rw [mainRun_single]
  simp [mainGo, getInstalledVersion, h1, h2, hres]

theorem toolChecks_keytool_missing (env : Env) (apk tool : List Char)
    (toolArgs : List (List Char)) (ev0 : List Event)
    (h3 : env.keytoolFound = false) :
    toolChecks env apk false tool toolArgs ev0 =
      ⟨ev0 ++ [Event.fatal (str "I require keytool but it's not installed. Aborting.")],
       [versionCmd], false, false, ExitKind.fatalExit⟩ := by
  simp [toolChecks, h3]

theorem toolChecks_jarsigner_missing (env : Env) (apk tool : List Char)
    (toolArgs : List (List Char)) (ev0 : List Event)
    (h3 : env.keytoolFound = true) (h4 : env.jarsignerFound = false) :
    toolChecks env apk false tool toolArgs ev0 =
      ⟨ev0 ++ [Event.fatal (str "I require jarsigner but it's not installed. Aborting.")],
       [versionCmd], false, false, ExitKind.fatalExit⟩ := by
  simp [toolChecks, h3, h4]

theorem toolChecks_tempdir_fail (env : Env) (apk tool : List Char)
    (toolArgs : List (List Char)) (ev0 : List Event) (e : Unit)
    (h3 : env.keytoolFound = true) (h4 : env.jarsignerFound = true)
    (h5 : env.tempDirRes = Except.error e) :
    toolChecks env apk false tool toolArgs ev0 =
      ⟨ev0 ++ [Event.fatal (str "Failed to create temporary directory:")],
       [versionCmd], false, false, ExitKind.fatalExit⟩ := by
  simp [toolChecks, h3, h4, h5]

/-- Any failing stage ends the pipeline in a fatal exit with a fatal
message, whatever apktool invocation and prior events are in effect. -/
theorem pipeline_stage_failure (env : Env) (apk tool tmpDir : List Char)
    (toolArgs : List (List Char)) (ev0 : List Event)
    (ha : env.apkStatOk = true) (hsf : stagesAllOk env = false) :
    (pipeline env apk false tool toolArgs ev0 tmpDir).exit = ExitKind.fatalExit ∧
    (∃ m, Event.fatal m ∈ (pipeline env apk false tool toolArgs ev0 tmpDir).events) := by
  cases hu : env.unpack.exitOk
  · rw [pipeline_unpack_fail env apk tool tmpDir toolArgs ev0 ha hu]
    exact ⟨rfl, str "Failed to unpack APK: ", by simp⟩
  · cases hm : addDebuggableFlag env.manifestRead env.manifestWriteOk with
    | error e =>
      cases e
      rw [pipeline_manifest_fail env apk tool tmpDir toolArgs ev0 ha hu hm]
      exact ⟨rfl, str "Failed to add debug flag: ", by simp⟩
    | ok m =>
      cases hr : env.repack.exitOk
      · rw [pipeline_repack_fail env apk tool tmpDir m toolArgs ev0 ha hu hm hr]
        exact ⟨rfl, str "Failed to repackage APK:", by simp⟩
      · cases hk : env.keytoolGen.exitOk
        · rw [pipeline_keystore_fail env apk tool tmpDir m toolArgs ev0 ha hu hm hr hk]
          exact ⟨rfl, str "Failed to generate keystore: ", by simp⟩
        · cases hs : env.sign.exitOk
          · rw [pipeline_sign_fail env apk tool tmpDir m toolArgs ev0 ha hu hm hr hk hs]
            exact ⟨rfl, str "Failed to sign APK: ", by simp⟩
          · cases hvf : env.verify.exitOk
            · rw [pipeline_verify_fail env apk tool tmpDir m toolArgs ev0 ha hu hm hr hk hs hvf]
              exact ⟨rfl, str "Failed to verify debug APK: ", by simp⟩
            · exfalso
              simp [stagesAllOk, hu, hm, hr, hk, hs, hvf] at hsf

/-! ## Claims about the run model -/

/-- Claim C1 (code_bug): the claim (and the deferred `os.RemoveAll`)
says the workspace directory is gone after every run.  In fact every
stage failure exits through `log.Fatal`, i.e. `os.Exit(1)`, which skips
deferred functions: whenever a run exits with status 1 after creating
the workspace, the workspace is NOT removed. -/
theorem claim1_workspace_persists_on_fatal (argv : List (List Char)) (env : Env)
    (hf : exitCode (mainRun argv env).exit = 1)
    (_hc : (mainRun argv env).tempDirCreated = true) :
    (mainRun argv env).tempDirRemoved = false := by
  cases hrm : (mainRun argv env).tempDirRemoved
  · rfl
  · have hn := tempDirRemoved_imp_normal argv env hrm
    rw [hn] at hf
    simp [exitCode] at hf

/-- Witness for `claim1_workspace_persists_on_fatal`: a run whose repack
stage fails leaves the created workspace on disk. -/
theorem claim1_witness :
    exitCode (mainRun [str "sample.apk"] envRepackFail).exit = 1 ∧
    (mainRun [str "sample.apk"] envRepackFail).tempDirCreated = true ∧
    (mainRun [str "sample.apk"] envRepackFail).tempDirRemoved = false :=
  ⟨by decide, by decide,
   claim1_workspace_persists_on_fatal [str "sample.apk"] envRepackFail (by decide) (by decide)⟩

/-- Claim C4, counterexample: an exact-version mismatch (2.4.1 installed)
with no fallback jar ends the run by a plain `return` after a
`fmt.Printf`: exit status 0, not the claimed nonzero fatal exit. -/
theorem claim4_counterexample :
    exitCode (mainRun [str "sample.apk"] envMismatch).exit = 0 ∧
    Event.print (mismatchMsg (str "2.4.1")) ∈ (mainRun [str "sample.apk"] envMismatch).events :=
  ⟨by decide, by decide⟩

/-- Claim C4 (corrected): every precondition failure the code reports
through `log.Fatal` — a failing version query, a missing keytool or a
missing jarsigner once the apktool invocation is resolved (exact version
match or jar fallback), a failing temporary-directory creation — and
every pipeline-stage failure, under either apktool configuration,
terminates with a fatal message and exit status 1; but an exact-version
mismatch with no local fallback artifact prints the version-mismatch
report and exits with status 0. -/
theorem claim4_amended :
    (∀ (env : Env) (apk : List Char) (e : Unit),
      env.versionOut = Except.error e →
      exitCode (mainRun [apk] env).exit = 1 ∧
      (∃ m, Event.fatal m ∈ (mainRun [apk] env).events)) ∧
    (∀ (env : Env) (apk o v : List Char) (vs : List (List Char)),
      env.versionOut = Except.ok o →
      fields (firstLine o) = v :: vs →
      (v = requiredVersion ∨ env.jarStatOk = true) →
      env.keytoolFound = false →
      exitCode (mainRun [apk] env).exit = 1 ∧
      (∃ m, Event.fatal m ∈ (mainRun [apk] env).events)) ∧
    (∀ (env : Env) (apk o v : List Char) (vs : List (List Char)),
      env.versionOut = Except.ok o →
      fields (firstLine o) = v :: vs →
      (v = requiredVersion ∨ env.jarStatOk = true) →
      env.keytoolFound = true → env.jarsignerFound = false →
      exitCode (mainRun [apk] env).exit = 1 ∧
      (∃ m, Event.fatal m ∈ (mainRun [apk] env).events)) ∧
    (∀ (env : Env) (apk o v : List Char) (vs : List (List Char)) (e : Unit),
      env.versionOut = Except.ok o →
      fields (firstLine o) = v :: vs →
      (v = requiredVersion ∨ env.jarStatOk = true) →
      env.keytoolFound = true → env.jarsignerFound = true →
      env.tempDirRes = Except.error e →
      exitCode (mainRun [apk] env).exit = 1 ∧
      (∃ m, Event.fatal m ∈ (mainRun [apk] env).events)) ∧
    (∀ (env : Env) (apk o v td : List Char) (vs : List (List Char)),
      env.versionOut = Except.ok o →
      fields (firstLine o) = v :: vs →
      (v = requiredVersion ∨ env.jarStatOk = true) →
      env.keytoolFound = true → env.jarsignerFound = true →
      env.tempDirRes = Except.ok td → env.apkStatOk = true →
      stagesAllOk env = false →
      exitCode (mainRun [apk] env).exit = 1 ∧
      (∃ m, Event.fatal m ∈ (mainRun [apk] env).events)) ∧
    (∀ (env : Env) (apk o v : List Char) (vs : List (List Char)),
      env.versionOut = Except.ok o →
      fields (firstLine o) = v :: vs →
      v ≠ requiredVersion → env.jarStatOk = false →
      exitCode (mainRun [apk] env).exit = 0 ∧
      Event.print (mismatchMsg v) ∈ (mainRun [apk] env).events) := by
  refine ⟨?_, ?_, ?_, ?_, ?_, ?_⟩
  · intro env apk e h1
    rw [mainRun_version_query_fail env apk e h1]
    exact ⟨rfl, str "Failed to check installed apktool version: ", by simp⟩
  · intro env apk o v vs h1 h2 hva h3
    obtain ⟨tool, toolArgs, ev0, hres⟩ := resolveApktool_inl env v hva
    rw [mainRun_toolChecks env apk o v tool vs toolArgs ev0 h1 h2 hres,
        toolChecks_keytool_missing env apk tool toolArgs ev0 h3]
    exact ⟨rfl, str "I require keytool but it's not installed. Aborting.", by simp⟩
  · intro env apk o v vs h1 h2 hva h3 h4
    obtain ⟨tool, toolArgs, ev0, hres⟩ := resolveApktool_inl env v hva
    rw [mainRun_toolChecks env apk o v tool vs toolArgs ev0 h1 h2 hres,
        toolChecks_jarsigner_missing env apk tool toolArgs ev0 h3 h4]
    exact ⟨rfl, str "I require jarsigner but it's not installed. Aborting.", by simp⟩
  · intro env apk o v vs e h1 h2 hva h3 h4 h5
    obtain ⟨tool, toolArgs, ev0, hres⟩ := resolveApktool_inl env v hva
    rw [mainRun_toolChecks env apk o v tool vs toolArgs ev0 h1 h2 hres,
        toolChecks_tempdir_fail env apk tool toolArgs ev0 e h3 h4 h5]
    exact ⟨rfl, str "Failed to create temporary directory:", by simp⟩
  · intro env apk o v td vs h1 h2 hva h3 h4 h5 ha hsf
    by_cases hv : v = requiredVersion
    · subst hv
      rw [mainRun_preflight env apk o td vs h1 h2 h3 h4 h5]
      obtain ⟨he, hm2⟩ := pipeline_stage_failure env apk (str "apktool") td [] [] ha hsf
      exact ⟨by rw [he]; rfl, hm2⟩
    · have hj : env.jarStatOk = true := by
        rcases hva with h | h
        · exact absurd h hv
        · exact h
      rw [mainRun_preflight_jar env apk o v td vs h1 h2 hv hj h3 h4 h5]
      obtain ⟨he, hm2⟩ := pipeline_stage_failure env apk (str "java") td
        [str "-jar", apktoolJar]
        [Event.print (str "Found apktool_2.5.0.jar file in the current directory. Proceeding...")]
        ha hsf
      exact ⟨by rw [he]; rfl, hm2⟩
  · intro env apk o v vs h1 h2 hv hj
    rw [mainRun_mismatch env apk o v vs h1 h2 hv hj]
    simp [exitCode]

/-- Witness for `claim4_amended`: one concrete run per conjunct — failing
version query, missing keytool, missing jarsigner, failing temp-dir
creation, failing repack stage (each exits 1 with a fatal message), and
the 2.4.1 mismatch run (exit 0 with the mismatch report). -/
theorem claim4_amended_witness :
    (exitCode (mainRun [str "sample.apk"] envVersionQueryFail).exit = 1 ∧
      (∃ m, Event.fatal m ∈ (mainRun [str "sample.apk"] envVersionQueryFail).events)) ∧
    (exitCode (mainRun [str "sample.apk"] envNoKeytool).exit = 1 ∧
      (∃ m, Event.fatal m ∈ (mainRun [str "sample.apk"] envNoKeytool).events)) ∧
    (exitCode (mainRun [str "sample.apk"] envNoJarsigner).exit = 1 ∧
      (∃ m, Event.fatal m ∈ (mainRun [str "sample.apk"] envNoJarsigner).events)) ∧
    (exitCode (mainRun [str "sample.apk"] envTempDirFail).exit = 1 ∧
      (∃ m, Event.fatal m ∈ (mainRun [str "sample.apk"] envTempDirFail).events)) ∧
    (exitCode (mainRun [str "sample.apk"] envRepackFail).exit = 1 ∧
      (∃ m, Event.fatal m ∈ (mainRun [str "sample.apk"] envRepackFail).events)) ∧
    (exitCode (mainRun [str "sample.apk"] envMismatch).exit = 0 ∧
      Event.print (mismatchMsg (str "2.4.1")) ∈ (mainRun [str "sample.apk"] envMismatch).events) :=
  ⟨claim4_amended.1 envVersionQueryFail (str "sample.apk") () rfl,
   claim4_amended.2.1 envNoKeytool (str "sample.apk") (str "2.5.0") (str "2.5.0") []
     rfl (by decide) (Or.inl rfl) rfl,
   claim4_amended.2.2.1 envNoJarsigner (str "sample.apk") (str "2.5.0") (str "2.5.0") []
     rfl (by decide) (Or.inl rfl) rfl rfl,
   claim4_amended.2.2.2.1 envTempDirFail (str "sample.apk") (str "2.5.0") (str "2.5.0") [] ()
     rfl (by decide) (Or.inl rfl) rfl rfl rfl,
   claim4_amended.2.2.2.2.1 envRepackFail (str "sample.apk") (str "2.5.0") (str "2.5.0")
     (str "/tmp/apkdebug123") [] rfl (by decide) (Or.inl rfl) rfl rfl rfl rfl (by decide),
   claim4_amended.2.2.2.2.2 envMismatch (str "sample.apk") (str "2.4.1") (str "2.4.1") []
     rfl (by decide) (by decide) rfl⟩

/-- Claim C5 (confirmed): in a run whose environment checks pass, a
missing input package is reported with a not-found message and the
process exits with status 0; no pipeline stage runs (the only external
process remains the version query, so no output package is produced),
and the already-created workspace is removed by the deferred cleanup on
this normal return. -/
theorem claim5_not_found (env : Env) (apk o v td : List Char) (vs : List (List Char))
    (h1 : env.versionOut = Except.ok o)
    (h2 : fields (firstLine o) = v :: vs)
    (hva : v = requiredVersion ∨ env.jarStatOk = true)
    (h3 : env.keytoolFound = true) (h4 : env.jarsignerFound = true)
    (h5 : env.tempDirRes = Except.ok td)
    (ha : env.apkStatOk = false) :
    exitCode (mainRun [apk] env).exit = 0 ∧
    Event.print (str "File not found:  " ++ apk) ∈ (mainRun [apk] env).events ∧
    (mainRun [apk] env).invoked = [versionCmd] ∧
    (mainRun [apk] env).tempDirCreated = true ∧
    (mainRun [apk] env).tempDirRemoved = true := by
  by_cases hv : v = requiredVersion
  · subst hv
    rw [mainRun_preflight env apk o td vs h1 h2 h3 h4 h5,
        pipeline_notFound env apk (str "apktool") td [] [] false ha]
    simp [exitCode]
  · have hj : env.jarStatOk = true := by
      rcases hva with h | h
      · exact absurd h hv
      · exact h
    rw [mainRun_preflight_jar env apk o v td vs h1 h2 hv hj h3 h4 h5,
        pipeline_notFound env apk (str "java") td [str "-jar", apktoolJar] _ false ha]
    simp [exitCode]

/-- Witness for `claim5_not_found`: a run over `envNoInput`. -/
theorem claim5_witness :
    exitCode (mainRun [str "sample.apk"] envNoInput).exit = 0 ∧
    Event.print (str "File not found:  " ++ str "sample.apk") ∈
      (mainRun [str "sample.apk"] envNoInput).events ∧
    (mainRun [str "sample.apk"] envNoInput).invoked = [versionCmd] ∧
    (mainRun [str "sample.apk"] envNoInput).tempDirCreated = true ∧
    (mainRun [str "sample.apk"] envNoInput).tempDirRemoved = true :=
  claim5_not_found envNoInput (str "sample.apk") (str "2.5.0") (str "2.5.0")
    (str "/tmp/apkdebug123") [] rfl (by decide) (Or.inl rfl) rfl rfl rfl rfl

/-- Claim C6 (confirmed): when the installed version differs from 2.5.0
and no apktool_2.5.0.jar exists in the working directory, the run stops
having launched only the version query (LookPath and Stat probe the file
system but launch no process), before the temporary workspace is created,
and prints the version-mismatch report. -/
theorem claim6_abort_before_workspace (env : Env) (apk o v : List Char) (vs : List (List Char))
    (h1 : env.versionOut = Except.ok o)
    (h2 : fields (firstLine o) = v :: vs)
    (hv : v ≠ requiredVersion)
    (hj : env.jarStatOk = false) :
    (mainRun [apk] env).invoked = [versionCmd] ∧
    (mainRun [apk] env).tempDirCreated = false ∧
    Event.print (mismatchMsg v) ∈ (mainRun [apk] env).events := by
  rw [mainRun_mismatch env apk o v vs h1 h2 hv hj]
  simp

/-- Witness for `claim6_abort_before_workspace` with version 2.4.1. -/
theorem claim6_witness :
    (mainRun [str "sample.apk"] envMismatch).invoked = [versionCmd] ∧
    (mainRun [str "sample.apk"] envMismatch).tempDirCreated = false ∧
    Event.print (mismatchMsg (str "2.4.1")) ∈ (mainRun [str "sample.apk"] envMismatch).events :=
  claim6_abort_before_workspace envMismatch (str "sample.apk") (str "2.4.1") (str "2.4.1") []
    rfl (by decide) (by decide) rfl

/-- Claim C7 (code_bug): when the repack tool exits nonzero the run
reports the repackaging failure, exits with status 1, and runs neither
the signing nor the verification stage; but contrary to the claim the
workspace is NOT removed, because `log.Fatal` exits through `os.Exit`
and skips the deferred `os.RemoveAll`. -/
theorem claim7_repack_failure (env : Env) (apk o td m : List Char) (vs : List (List Char))
    (h1 : env.versionOut = Except.ok o)
    (h2 : fields (firstLine o) = requiredVersion :: vs)
    (h3 : env.keytoolFound = true) (h4 : env.jarsignerFound = true)
    (h5 : env.tempDirRes = Except.ok td)
    (ha : env.apkStatOk = true) (hu : env.unpack.exitOk = true)
    (hm : addDebuggableFlag env.manifestRead env.manifestWriteOk = Except.ok m)
    (hr : env.repack.exitOk = false) :
    Event.fatal (str "Failed to repackage APK:") ∈ (mainRun [apk] env).events ∧
    exitCode (mainRun [apk] env).exit = 1 ∧
    (mainRun [apk] env).tempDirCreated = true ∧
    (mainRun [apk] env).tempDirRemoved = false ∧
    (mainRun [apk] env).invoked =
      [versionCmd, unpackCmd (str "apktool") [] apk td, repackCmd (str "apktool") [] apk td] := by
  rw [mainRun_preflight env apk o td vs h1 h2 h3 h4 h5,
      pipeline_repack_fail env apk (str "apktool") td m [] [] ha hu hm hr]
  simp [exitCode]

/-- Witness for `claim7_repack_failure` over `envRepackFail`. -/
theorem claim7_witness :
    Event.fatal (str "Failed to repackage APK:") ∈
      (mainRun [str "sample.apk"] envRepackFail).events ∧
    exitCode (mainRun [str "sample.apk"] envRepackFail).exit = 1 ∧
    (mainRun [str "sample.apk"] envRepackFail).tempDirCreated = true ∧
    (mainRun [str "sample.apk"] envRepackFail).tempDirRemoved = false ∧
    (mainRun [str "sample.apk"] envRepackFail).invoked =
      [versionCmd, unpackCmd (str "apktool") [] (str "sample.apk") (str "/tmp/apkdebug123"),
       repackCmd (str "apktool") [] (str "sample.apk") (str "/tmp/apkdebug123")] :=
  claim7_repack_failure envRepackFail (str "sample.apk") (str "2.5.0") (str "/tmp/apkdebug123")
    (manifestTransform (str "<manifest><application android:name=\"m\"></application></manifest>"))
    [] rfl (by decide) rfl rfl rfl rfl rfl (by rfl) rfl

/-- Claim C8 (confirmed): two runs differing only in the debug flag
launch the same external processes in the same order, exit the same way,
handle the workspace identically, and print the same events apart from
the diagnostic output/error dumps, which only the debug run emits (and
only inside `processCMD`, i.e. after a stage failure); the run without
the flag never prints a diagnostic event. -/
theorem claim8_debug_flag_noninterference (env : Env) (apk : List Char) :
    (mainRun [apk, debugWord] env).invoked = (mainRun [apk] env).invoked ∧
    (mainRun [apk, debugWord] env).exit = (mainRun [apk] env).exit ∧
    (mainRun [apk, debugWord] env).tempDirCreated = (mainRun [apk] env).tempDirCreated ∧
    (mainRun [apk, debugWord] env).tempDirRemoved = (mainRun [apk] env).tempDirRemoved ∧
    removeDiag (mainRun [apk, debugWord] env).events = removeDiag (mainRun [apk] env).events ∧
    (mainRun [apk] env).events.filter isDiag = [] := by
  rw [mainRun_debug, mainRun_single]
  obtain ⟨a, b2, c, d, e⟩ := mainGo_flag_indep env apk true
  exact ⟨a, b2, c, d, e, mainGo_false_noDiag env apk⟩

end DebugAPK
